import Mathlib

/-!
Shallow embedding of `src/native/jni/src/library.cpp` (SnapEnhance native core).

The file models the two installed interceptors:

* `fstat_hook` — the file-descriptor interceptor replacing libc `fstat`
  (library.cpp lines 16–38).  The descriptor-to-path resolution
  (`readlink("/proc/self/fd/N")`, an OS facility outside the repository) is
  modelled as the `path` argument; the `struct stat` output buffer is an
  abstract state `σ` that only the original primitive may transform; the
  `unlink` side effect and the call to the original are recorded as events.

* `unaryCall_hook` — the unary-call interceptor replacing the gRPC dispatch
  function (library.cpp lines 47–105).  Heap memory is a list of allocated
  blocks (base address ↦ bytes); the JNI round trip to
  `onNativeUnaryCall` is the oracle `onNativeUnaryCall`; the C++
  `const static auto ref_counter_struct_size` (line 86) is the `cached`
  field of the global state, initialised the first time the rewrite path
  executes and reused afterwards; `malloc` failure is the environment flag
  `allocFails` (the source never checks malloc's result, so a failed
  allocation makes the subsequent `memcpy` dereference NULL: modelled as a
  crash outcome).  Undefined behaviour (null dereference, out-of-bounds
  read, invalid free) is the `HookRet.crash` outcome.
-/

namespace SnapEnhance

/-- native_config_t flags read by the interceptors (config.h / load_config). -/
structure NativeConfig where
  disable_metrics : Bool
  disable_bitmoji : Bool
deriving DecidableEq

/-- Whether `pat` occurs at the start of `s` (helper for substring search). -/
def listLeads : List Char → List Char → Bool
  | [], _ => true
  | _ :: _, [] => false
  | p :: ps, c :: cs => p == c && listLeads ps cs

/-- `std::string::find(pat) != npos`: whether `pat` occurs in `s`. -/
def strContains (pat : List Char) : List Char → Bool
  | [] => listLeads pat []
  | c :: rest => listLeads pat (c :: rest) || strContains pat rest

/-- The metrics-queue directory marker (library.cpp line 26). -/
def metricsMarker : List Char := "files/blizzardv2/queues".toList

/-- The companion-content (bitmoji) marker (library.cpp line 33). -/
def bitmojiMarker : List Char := "com.snap.file_manager_4_SCContent".toList

/-- Observable side effects of one `fstat_hook` invocation. -/
inductive FSEvent where
  | unlink (path : List Char)
  | callOriginal (fd : Int)
deriving DecidableEq

/-- Result of one `fstat_hook` invocation: return value, final content of the
caller-supplied `struct stat` buffer, and the recorded side effects. -/
structure FstatOut (σ : Type) where
  ret : Int
  buf : σ
  events : List FSEvent

/-- library.cpp lines 16–38.  `path` is the string produced by the
`readlink("/proc/self/fd/fd")` resolution; `fstat_original` is the trampoline
to the original primitive, taking and transforming the abstract stat buffer. -/
def fstat_hook {σ : Type} (cfg : NativeConfig) (fd : Int) (path : List Char)
    (fstat_original : Int → σ → Int × σ) (buf : σ) : FstatOut σ :=
  if cfg.disable_metrics && strContains metricsMarker path then
    ⟨-1, buf, [.unlink path]⟩
  else if cfg.disable_bitmoji && strContains bitmojiMarker path then
    ⟨-1, buf, []⟩
  else
    let r := fstat_original fd buf
    ⟨r.1, r.2, [.callOriginal fd]⟩

/-- grpc slice buffer descriptor (grpc.h), the struct mutated in place by the
hook.  Pointers are modelled as natural addresses; `ref_counter = 0` is the
NULL reference-counter pointer tested on library.cpp line 52. -/
structure SliceBuffer where
  ref_counter : Nat
  length : Nat
  data : Nat
deriving DecidableEq

/-- grpc byte buffer: holds a (possibly NULL) pointer to the slice buffer. -/
structure ByteBuffer where
  slice_buffer : Option SliceBuffer
deriving DecidableEq

/-- The Java `NativeRequestData` object returned by `onNativeUnaryCall`
(fields read on library.cpp lines 70–82). -/
structure NativeRequestData where
  canceled : Bool
  buffer : List Nat
deriving DecidableEq

/-- Heap of live malloc blocks: base address ↦ byte contents, plus the next
fresh address the allocator hands out. -/
structure Heap where
  blocks : List (Nat × List Nat)
  nextAddr : Nat
deriving DecidableEq

/-- Contents of the block whose base address is `base`, if allocated. -/
def Heap.lookupBlock (h : Heap) (base : Nat) : Option (List Nat) :=
  (h.blocks.find? (fun b => b.1 == base)).map Prod.snd

/-- Read `n` bytes at absolute address `addr` from the first block of the
list that contains the whole range; `none` when no block does. -/
def readBytesList : List (Nat × List Nat) → Nat → Nat → Option (List Nat)
  | [], _, _ => none
  | b :: rest, addr, n =>
    if b.1 ≤ addr ∧ addr + n ≤ b.1 + b.2.length then
      some ((b.2.drop (addr - b.1)).take n)
    else readBytesList rest addr n

/-- Read `n` bytes at absolute address `addr`; `none` when no single live
block contains the whole range (an out-of-bounds read, undefined in C). -/
def readBytes (h : Heap) (addr n : Nat) : Option (List Nat) :=
  readBytesList h.blocks addr n

/-- Remove the first block with base `a`; `none` when no such block is live
(`free` of a non-allocated pointer, undefined in C). -/
def removeBlock : List (Nat × List Nat) → Nat → Option (List (Nat × List Nat))
  | [], _ => none
  | b :: rest, a => if b.1 = a then some rest else (removeBlock rest a).map (b :: ·)

/-- `free(base)`: drop the block from the heap. -/
def Heap.free (h : Heap) (base : Nat) : Option Heap :=
  (removeBlock h.blocks base).map (fun bs => { h with blocks := bs })

/-- `malloc` of a block that the caller immediately fills with `contents`
(in the hook the two `memcpy`s on lines 91–93 cover the whole allocation:
header bytes then payload bytes).  Returns the new heap and base address. -/
def Heap.mallocBlock (h : Heap) (contents : List Nat) : Heap × Nat :=
  ({ blocks := (h.nextAddr, contents) :: h.blocks,
     nextAddr := h.nextAddr + contents.length + 1 }, h.nextAddr)

/-- Observable events of one `unaryCall_hook` invocation, in program order. -/
inductive Event where
  | readPayload (bytes : List Nat)
  | decideCall (uri : String) (payload : List Nat)
  | mallocEv (size : Nat)
  | freeEv (addr : Nat)
  | dispatchEv (sb : SliceBuffer)
deriving DecidableEq

/-- Return value of the hook: the original dispatch's result passed through
unchanged, the NULL returned on cancel, or undefined behaviour. -/
inductive HookRet where
  | fromOriginal
  | nullPtr
  | crash
deriving DecidableEq

/-- Process-wide state the hook reads and writes: the heap and the C++
`const static auto ref_counter_struct_size` of library.cpp line 86
(`none` before its one-time initialisation). -/
structure GlobalState where
  heap : Heap
  cached : Option Nat
deriving DecidableEq

/-- Result of one `unaryCall_hook` invocation. -/
structure HookOut where
  ret : HookRet
  events : List Event
  heap : Heap
  cached : Option Nat
  buffer : Option (Option ByteBuffer)
deriving DecidableEq

/-- Outcome of a run that hit undefined behaviour: events up to the crash. -/
def crashOut (heap : Heap) (cached : Option Nat)
    (buffer_ptr : Option (Option ByteBuffer)) (evs : List Event) : HookOut :=
  ⟨.crash, evs, heap, cached, buffer_ptr⟩

/-- library.cpp lines 47–105.  `buffer_ptr` is the `grpc_byte_buffer **`
argument (outer `none`: the pointer itself is NULL; inner `none`: it points
to a NULL `grpc_byte_buffer *`); `onNativeUnaryCall` is the JNI decision
callback; `allocFails` tells whether the malloc on line 89 returns NULL. -/
def unaryCall_hook (g : GlobalState) (uri : String)
    (buffer_ptr : Option (Option ByteBuffer))
    (onNativeUnaryCall : String → List Nat → Option NativeRequestData)
    (allocFails : Bool) : HookOut :=
  match buffer_ptr with
  | none => crashOut g.heap g.cached buffer_ptr []
  | some none => crashOut g.heap g.cached buffer_ptr []
  | some (some bb) =>
    match bb.slice_buffer with
    | none => crashOut g.heap g.cached buffer_ptr []
    | some slice_buffer =>
      if slice_buffer.ref_counter = 0 then
        ⟨.fromOriginal, [.dispatchEv slice_buffer], g.heap, g.cached, buffer_ptr⟩
      else
        match readBytes g.heap slice_buffer.data slice_buffer.length with
        | none => crashOut g.heap g.cached buffer_ptr []
        | some payload =>
          let evs0 := [Event.readPayload payload, Event.decideCall uri payload]
          match onNativeUnaryCall uri payload with
          | none =>
            ⟨.fromOriginal, evs0 ++ [.dispatchEv slice_buffer], g.heap, g.cached, buffer_ptr⟩
          | some native_request_data =>
            if native_request_data.canceled then
              ⟨.nullPtr, evs0, g.heap, g.cached, buffer_ptr⟩
            else
              let new_buffer_length := native_request_data.buffer.length
              let ref_counter_struct_size :=
                g.cached.getD (slice_buffer.data - slice_buffer.ref_counter)
              let evs1 := evs0 ++ [Event.mallocEv (ref_counter_struct_size + new_buffer_length)]
              if allocFails then
                crashOut g.heap (some ref_counter_struct_size) buffer_ptr evs1
              else
                match readBytes g.heap slice_buffer.ref_counter ref_counter_struct_size with
                | none => crashOut g.heap (some ref_counter_struct_size) buffer_ptr evs1
                | some headerBytes =>
                  let m := g.heap.mallocBlock (headerBytes ++ native_request_data.buffer)
                  match m.1.free slice_buffer.ref_counter with
                  | none => crashOut m.1 (some ref_counter_struct_size) buffer_ptr evs1
                  | some h2 =>
                    let sb2 : SliceBuffer :=
                      { ref_counter := m.2,
                        length := new_buffer_length,
                        data := m.2 + ref_counter_struct_size }
                    ⟨.fromOriginal,
                      evs1 ++ [.freeEv slice_buffer.ref_counter, .dispatchEv sb2],
                      h2, some ref_counter_struct_size,
                      some (some { slice_buffer := some sb2 })⟩

/-! Concrete runs used by counterexamples, failing inputs and witnesses. -/

/-- A decision-maker that always asks to rewrite the request with payload `p`. -/
def exDecideRewrite (p : List Nat) : String → List Nat → Option NativeRequestData :=
  fun _ _ => some { canceled := false, buffer := p }

/-- Initial heap: a buffer at 10 with a 1-byte header `[7]` and payload `[50]`,
and a buffer at 20 with a 3-byte header `[1,2,3]` and payload `[60]`. -/
def exHeap : Heap := ⟨[(10, [7, 50]), (20, [1, 2, 3, 60])], 100⟩

/-- Slice buffer over the block at 10: header size 1 (data 11 − block 10). -/
def exSb1 : SliceBuffer := ⟨10, 1, 11⟩

/-- Slice buffer over the block at 20: header size 3 (data 23 − block 20). -/
def exSb2 : SliceBuffer := ⟨20, 1, 23⟩

/-- Process state before any interception: the static is uninitialised. -/
def exG0 : GlobalState := ⟨exHeap, none⟩

/-- First interception: rewrite of `exSb1` (header size 1) to payload `[90]`. -/
def exOut1 : HookOut :=
  unaryCall_hook exG0 "u1" (some (some ⟨some exSb1⟩)) (exDecideRewrite [90]) false

/-- Second interception, in the state the first one left: rewrite of `exSb2`
(header size 3) to payload `[91]`. -/
def exOut2 : HookOut :=
  unaryCall_hook ⟨exOut1.heap, exOut1.cached⟩ "u2" (some (some ⟨some exSb2⟩))
    (exDecideRewrite [91]) false

/-- A rewrite interception in which the malloc on line 89 returns NULL. -/
def exOutAllocFail : HookOut :=
  unaryCall_hook exG0 "u1" (some (some ⟨some exSb1⟩)) (exDecideRewrite [90]) true

/-- A resolved descriptor path inside the metrics queue directory. -/
def exPathMetrics : List Char :=
  "/data/user/0/com.snapchat.android/files/blizzardv2/queues/q".toList

/-- A resolved descriptor path carrying the companion-content marker. -/
def exPathBitmoji : List Char :=
  "/data/user/0/com.snapchat.android/files/com.snap.file_manager_4_SCContent/a".toList

/-- Whether an event is a dispatch of the original function. -/
def isDispatchEv : Event → Bool
  | .dispatchEv _ => true
  | _ => false

/-- Whether an event is a `free`. -/
def isFreeEv : Event → Bool
  | .freeEv _ => true
  | _ => false

/-! Theorems. -/

/-- A successful read of `n` bytes returns exactly `n` bytes. -/
theorem readBytesList_length (bs : List (Nat × List Nat)) (addr n : Nat)
    (out : List Nat) (h : readBytesList bs addr n = some out) : out.length = n := by
  induction bs with
  | nil => simp [readBytesList] at h
  | cons b rest ih =>
    by_cases hc : b.1 ≤ addr ∧ addr + n ≤ b.1 + b.2.length
    · simp only [readBytesList, if_pos hc, Option.some.injEq] at h
      obtain ⟨h1, h2⟩ := hc
      rw [← h, List.length_take, List.length_drop]
      omega
    · simp only [readBytesList, if_neg hc] at h
      exact ih h

/-- A successful read of `n` bytes returns exactly `n` bytes. -/
theorem readBytes_length (h : Heap) (addr n : Nat) (out : List Nat)
    (hr : readBytes h addr n = some out) : out.length = n :=
  readBytesList_length h.blocks addr n out hr

/-- Reading a range inside the head block of the heap. -/
theorem readBytes_head (a : Nat) (bytes : List Nat) (rest : List (Nat × List Nat))
    (next addr n : Nat) (h1 : a ≤ addr) (h2 : addr + n ≤ a + bytes.length) :
    readBytes ⟨(a, bytes) :: rest, next⟩ addr n
      = some ((bytes.drop (addr - a)).take n) := by
  simp [readBytes, readBytesList, h1, h2]

/-- C7: with the suppress-metrics flag set and a resolved path containing the
metrics-queue marker, `fstat_hook` deletes the underlying file (the `unlink`
event), returns failure (−1) to the caller, leaves the stat buffer untouched,
and never invokes the original file-status primitive (no `callOriginal`
event; the trace is exactly `[unlink path]`). -/
theorem fstat_metrics_branch {σ : Type} (cfg : NativeConfig) (fd : Int)
    (path : List Char) (fstat_original : Int → σ → Int × σ) (buf : σ)
    (hm : cfg.disable_metrics = true)
    (hp : strContains metricsMarker path = true) :
    fstat_hook cfg fd path fstat_original buf = ⟨-1, buf, [.unlink path]⟩ := by
  simp [fstat_hook, hm, hp]

/-- C7 witness: concrete run on a metrics-queue path. -/
theorem fstat_metrics_branch_witness :
    (⟨true, false⟩ : NativeConfig).disable_metrics = true ∧
    strContains metricsMarker exPathMetrics = true ∧
    fstat_hook ⟨true, false⟩ 3 exPathMetrics (fun _ b => ((0 : Int), b)) (0 : Nat)
      = ⟨-1, 0, [.unlink exPathMetrics]⟩ :=
  ⟨rfl, by decide,
   fstat_metrics_branch ⟨true, false⟩ 3 exPathMetrics (fun _ b => ((0 : Int), b)) 0
     rfl (by decide)⟩

/-- C8: when the metrics branch did not fire, the suppress-companion flag is
set and the resolved path contains the companion-content marker, `fstat_hook`
returns failure (−1) with an empty event trace: no file deletion and no call
to the original primitive; the stat buffer is untouched. -/
theorem fstat_bitmoji_branch {σ : Type} (cfg : NativeConfig) (fd : Int)
    (path : List Char) (fstat_original : Int → σ → Int × σ) (buf : σ)
    (hm : (cfg.disable_metrics && strContains metricsMarker path) = false)
    (hb : cfg.disable_bitmoji = true)
    (hp : strContains bitmojiMarker path = true) :
    fstat_hook cfg fd path fstat_original buf = ⟨-1, buf, []⟩ := by
  simp [fstat_hook, hm, hb, hp]

/-- C8 witness: concrete run on a companion-content path. -/
theorem fstat_bitmoji_branch_witness :
    ((⟨false, true⟩ : NativeConfig).disable_metrics
        && strContains metricsMarker exPathBitmoji) = false ∧
    (⟨false, true⟩ : NativeConfig).disable_bitmoji = true ∧
    strContains bitmojiMarker exPathBitmoji = true ∧
    fstat_hook ⟨false, true⟩ 4 exPathBitmoji (fun _ b => ((0 : Int), b)) (0 : Nat)
      = ⟨-1, 0, []⟩ :=
  ⟨by decide, rfl, by decide,
   fstat_bitmoji_branch ⟨false, true⟩ 4 exPathBitmoji (fun _ b => ((0 : Int), b)) 0
     (by decide) rfl (by decide)⟩

/-- C9: on either denial branch (metrics or companion), `fstat_hook` returns
−1, the caller-supplied stat structure comes back exactly as it went in, and
the original primitive is never called — so only the forwarding path can
modify that structure. -/
theorem fstat_denial_frame {σ : Type} (cfg : NativeConfig) (fd : Int)
    (path : List Char) (fstat_original : Int → σ → Int × σ) (buf : σ)
    (h : (cfg.disable_metrics && strContains metricsMarker path) = true ∨
         (cfg.disable_bitmoji && strContains bitmojiMarker path) = true) :
    (fstat_hook cfg fd path fstat_original buf).ret = -1 ∧
    (fstat_hook cfg fd path fstat_original buf).buf = buf ∧
    ∀ g, FSEvent.callOriginal g ∉ (fstat_hook cfg fd path fstat_original buf).events := by
  by_cases hm : (cfg.disable_metrics && strContains metricsMarker path) = true
  · simp [fstat_hook, hm]
  · rcases h with h | h
    · exact absurd h hm
    · simp [fstat_hook, hm, h]

/-- C9 witness: concrete denial run (metrics branch). -/
theorem fstat_denial_frame_witness :
    (((⟨true, false⟩ : NativeConfig).disable_metrics
        && strContains metricsMarker exPathMetrics) = true ∨
     ((⟨true, false⟩ : NativeConfig).disable_bitmoji
        && strContains bitmojiMarker exPathMetrics) = true) ∧
    ((fstat_hook ⟨true, false⟩ 5 exPathMetrics (fun _ b => ((7 : Int), b)) (0 : Nat)).ret = -1 ∧
     (fstat_hook ⟨true, false⟩ 5 exPathMetrics (fun _ b => ((7 : Int), b)) (0 : Nat)).buf = 0 ∧
     ∀ g, FSEvent.callOriginal g
        ∉ (fstat_hook ⟨true, false⟩ 5 exPathMetrics (fun _ b => ((7 : Int), b)) (0 : Nat)).events) :=
  ⟨Or.inl (by decide),
   fstat_denial_frame ⟨true, false⟩ 5 exPathMetrics (fun _ b => ((7 : Int), b)) 0
     (Or.inl (by decide))⟩

/-- C4: when the slice buffer's reference-counter pointer is zero, the hook
forwards immediately: the whole trace is one dispatch of the untouched
buffer (so no payload read, no decision call, no malloc and no free), the
heap, the static, and the buffer pointer are unchanged, and the original
dispatch's result is returned. -/
theorem unaryCall_refcount_zero_forwards (g : GlobalState) (uri : String)
    (bb : ByteBuffer) (sb : SliceBuffer)
    (onUC : String → List Nat → Option NativeRequestData) (allocFails : Bool)
    (hsb : bb.slice_buffer = some sb)
    (h0 : sb.ref_counter = 0) :
    unaryCall_hook g uri (some (some bb)) onUC allocFails
      = ⟨.fromOriginal, [.dispatchEv sb], g.heap, g.cached, some (some bb)⟩ := by
  simp [unaryCall_hook, hsb, h0]

/-- C4 witness: concrete run with a zero reference counter. -/
theorem unaryCall_refcount_zero_forwards_witness :
    (⟨some ⟨0, 1, 11⟩⟩ : ByteBuffer).slice_buffer = some ⟨0, 1, 11⟩ ∧
    (⟨0, 1, 11⟩ : SliceBuffer).ref_counter = 0 ∧
    unaryCall_hook exG0 "u0" (some (some ⟨some ⟨0, 1, 11⟩⟩)) (fun _ _ => none) false
      = ⟨.fromOriginal, [.dispatchEv ⟨0, 1, 11⟩], exG0.heap, exG0.cached,
         some (some ⟨some ⟨0, 1, 11⟩⟩)⟩ :=
  ⟨rfl, rfl,
   unaryCall_refcount_zero_forwards exG0 "u0" ⟨some ⟨0, 1, 11⟩⟩ ⟨0, 1, 11⟩
     (fun _ _ => none) false rfl rfl⟩

/-- C5: when the decision-maker returns a canceled request, the hook returns
NULL, the trace stops after the payload read and the decision call (so the
original dispatch is never invoked, nothing is allocated and nothing is
freed), and the heap, the static and the buffer pointer are unchanged. -/
theorem unaryCall_cancel (g : GlobalState) (uri : String)
    (bb : ByteBuffer) (sb : SliceBuffer)
    (onUC : String → List Nat → Option NativeRequestData) (allocFails : Bool)
    (payload : List Nat) (rd : NativeRequestData)
    (hsb : bb.slice_buffer = some sb)
    (h0 : sb.ref_counter ≠ 0)
    (hp : readBytes g.heap sb.data sb.length = some payload)
    (hd : onUC uri payload = some rd)
    (hc : rd.canceled = true) :
    unaryCall_hook g uri (some (some bb)) onUC allocFails
      = ⟨.nullPtr, [.readPayload payload, .decideCall uri payload],
         g.heap, g.cached, some (some bb)⟩ := by
  simp [unaryCall_hook, hsb, h0, hp, hd, hc]

/-- C5 witness: concrete canceled run. -/
theorem unaryCall_cancel_witness :
    (⟨some exSb1⟩ : ByteBuffer).slice_buffer = some exSb1 ∧
    exSb1.ref_counter ≠ 0 ∧
    readBytes exG0.heap exSb1.data exSb1.length = some [50] ∧
    (fun (_ : String) (_ : List Nat) =>
        some (⟨true, []⟩ : NativeRequestData)) "u1" [50] = some ⟨true, []⟩ ∧
    (⟨true, ([] : List Nat)⟩ : NativeRequestData).canceled = true ∧
    unaryCall_hook exG0 "u1" (some (some ⟨some exSb1⟩)) (fun _ _ => some ⟨true, []⟩) false
      = ⟨.nullPtr, [.readPayload [50], .decideCall "u1" [50]],
         exG0.heap, exG0.cached, some (some ⟨some exSb1⟩)⟩ :=
  ⟨rfl, by decide, by decide, rfl, rfl,
   unaryCall_cancel exG0 "u1" ⟨some exSb1⟩ exSb1 (fun _ _ => some ⟨true, []⟩) false
     [50] ⟨true, []⟩ rfl (by decide) (by decide) rfl rfl⟩

/-- C6: when the decision-maker returns no opinion (NULL), the buffer
descriptor and the heap (hence the payload bytes) are exactly as before, the
trace is payload read, decision call, then exactly one dispatch of the
unchanged buffer, and the original dispatch's result is returned unchanged. -/
theorem unaryCall_no_opinion (g : GlobalState) (uri : String)
    (bb : ByteBuffer) (sb : SliceBuffer)
    (onUC : String → List Nat → Option NativeRequestData) (allocFails : Bool)
    (payload : List Nat)
    (hsb : bb.slice_buffer = some sb)
    (h0 : sb.ref_counter ≠ 0)
    (hp : readBytes g.heap sb.data sb.length = some payload)
    (hd : onUC uri payload = none) :
    unaryCall_hook g uri (some (some bb)) onUC allocFails
      = ⟨.fromOriginal, [.readPayload payload, .decideCall uri payload, .dispatchEv sb],
         g.heap, g.cached, some (some bb)⟩ := by
  simp [unaryCall_hook, hsb, h0, hp, hd]

/-- C6 witness: concrete no-opinion run. -/
theorem unaryCall_no_opinion_witness :
    (⟨some exSb1⟩ : ByteBuffer).slice_buffer = some exSb1 ∧
    exSb1.ref_counter ≠ 0 ∧
    readBytes exG0.heap exSb1.data exSb1.length = some [50] ∧
    (fun (_ : String) (_ : List Nat) => (none : Option NativeRequestData)) "u1" [50] = none ∧
    unaryCall_hook exG0 "u1" (some (some ⟨some exSb1⟩)) (fun _ _ => none) false
      = ⟨.fromOriginal, [.readPayload [50], .decideCall "u1" [50], .dispatchEv exSb1],
         exG0.heap, exG0.cached, some (some ⟨some exSb1⟩)⟩ :=
  ⟨rfl, by decide, by decide, rfl,
   unaryCall_no_opinion exG0 "u1" ⟨some exSb1⟩ exSb1 (fun _ _ => none) false
     [50] rfl (by decide) (by decide) rfl⟩

/-- C10: the hook dereferences the buffer pointer, the byte buffer it points
to, and that buffer's slice_buffer pointer before the reference-count check
and with no guard: if any of the three is NULL the run is undefined
behaviour (crash) regardless of every other input, so the hook's defined
domain requires all three to be non-null. -/
theorem unaryCall_null_crash (g : GlobalState) (uri : String)
    (buffer_ptr : Option (Option ByteBuffer))
    (onUC : String → List Nat → Option NativeRequestData) (allocFails : Bool)
    (h : buffer_ptr = none ∨ buffer_ptr = some none ∨
         ∃ bb, buffer_ptr = some (some bb) ∧ bb.slice_buffer = none) :
    (unaryCall_hook g uri buffer_ptr onUC allocFails).ret = .crash := by
  rcases h with h | h | ⟨bb, h, hbb⟩ <;> subst h <;>
    simp [unaryCall_hook, crashOut]
  simp [hbb]

/-- C10 witness: concrete run with a NULL buffer pointer. -/
theorem unaryCall_null_crash_witness :
    ((none : Option (Option ByteBuffer)) = none ∨
     (none : Option (Option ByteBuffer)) = some none ∨
     ∃ bb, (none : Option (Option ByteBuffer)) = some (some bb)
        ∧ bb.slice_buffer = none) ∧
    (unaryCall_hook exG0 "u" none (fun _ _ => none) false).ret = .crash :=
  ⟨Or.inl rfl,
   unaryCall_null_crash exG0 "u" none (fun _ _ => none) false (Or.inl rfl)⟩

/-- C2 failing input: a rewrite in which the malloc of the new backing block
returns NULL.  The source never checks malloc's result (library.cpp line 89),
so the `memcpy` on line 91 dereferences NULL: the run is undefined behaviour
(crash) right after the malloc event — the original dispatch is never
reached and nothing is freed, contradicting the claimed fall-back to
forwarding the unmodified buffer. -/
theorem unaryCall_alloc_failure_crashes :
    exOutAllocFail.ret = .crash ∧
    exOutAllocFail.events = [.readPayload [50], .decideCall "u1" [50], .mallocEv 2] ∧
    exOutAllocFail.events.all (fun e => !(isDispatchEv e) && !(isFreeEv e)) = true := by
  decide

/-- C3 counterexample: the two-interception run `exOut1`, `exOut2`.  The C++
`const static auto ref_counter_struct_size` (library.cpp line 86) is
initialised at the first rewrite (header size 1) and reused at the second,
whose own header size is 23 − 20 = 3: the second rewrite mallocs 1 + 1 = 2
bytes (never 3 + 1), places data_pointer at offset 1 of the new block, and
leaves the static at 1 — so the header size is not computed per invocation
as claimed. -/
theorem unaryCall_header_size_cached_counterexample :
    exSb2.data - exSb2.ref_counter = 3 ∧
    exSb1.data - exSb1.ref_counter = 1 ∧
    exOut1.cached = some 1 ∧
    exOut2.events = [.readPayload [60], .decideCall "u2" [60], .mallocEv 2,
                     .freeEv 20, .dispatchEv ⟨103, 1, 104⟩] ∧
    Event.mallocEv (3 + 1) ∉ exOut2.events ∧
    exOut2.cached = some 1 ∧
    exOut2.buffer = some (some ⟨some ⟨103, 1, 104⟩⟩) := by
  decide

/-- C3 amended: on every rewrite the header size used to size the new block
(the malloc event) is the value of the process-wide static
`ref_counter_struct_size`: it is computed as (data_pointer −
ref_counter_block) of the invocation that first reaches the rewrite path
and is reused unchanged by every later rewrite; after the call the static
holds that value. -/
theorem unaryCall_header_size_static (g : GlobalState) (uri : String)
    (bb : ByteBuffer) (sb : SliceBuffer)
    (onUC : String → List Nat → Option NativeRequestData) (allocFails : Bool)
    (payload : List Nat) (rd : NativeRequestData)
    (hsb : bb.slice_buffer = some sb)
    (h0 : sb.ref_counter ≠ 0)
    (hp : readBytes g.heap sb.data sb.length = some payload)
    (hd : onUC uri payload = some rd)
    (hc : rd.canceled = false) :
    Event.mallocEv (g.cached.getD (sb.data - sb.ref_counter) + rd.buffer.length)
      ∈ (unaryCall_hook g uri (some (some bb)) onUC allocFails).events ∧
    (unaryCall_hook g uri (some (some bb)) onUC allocFails).cached
      = some (g.cached.getD (sb.data - sb.ref_counter)) := by
  simp only [unaryCall_hook, hsb, hp, hd, h0, if_neg, hc, Bool.false_eq_true,
    if_false]
  cases allocFails with
  | true => simp [crashOut]
  | false =>
    cases hh : readBytes g.heap sb.ref_counter
        (g.cached.getD (sb.data - sb.ref_counter)) with
    | none => simp [hh, crashOut]
    | some headerBytes =>
      cases hf : Heap.free
          (g.heap.mallocBlock (headerBytes ++ rd.buffer)).1 sb.ref_counter with
      | none => simp [hh, hf, crashOut]
      | some h2 => simp [hh, hf]

/-- C3 amended witness: the second interception of the concrete run, where
the static (1) differs from the invocation's own header size (3). -/
theorem unaryCall_header_size_static_witness :
    (⟨some exSb2⟩ : ByteBuffer).slice_buffer = some exSb2 ∧
    exSb2.ref_counter ≠ 0 ∧
    readBytes exOut1.heap exSb2.data exSb2.length = some [60] ∧
    exDecideRewrite [91] "u2" [60] = some ⟨false, [91]⟩ ∧
    (⟨false, [91]⟩ : NativeRequestData).canceled = false ∧
    (Event.mallocEv ((exOut1.cached.getD (exSb2.data - exSb2.ref_counter)) + [91].length)
       ∈ (unaryCall_hook ⟨exOut1.heap, exOut1.cached⟩ "u2" (some (some ⟨some exSb2⟩))
            (exDecideRewrite [91]) false).events ∧
     (unaryCall_hook ⟨exOut1.heap, exOut1.cached⟩ "u2" (some (some ⟨some exSb2⟩))
          (exDecideRewrite [91]) false).cached
       = some (exOut1.cached.getD (exSb2.data - exSb2.ref_counter))) :=
  ⟨rfl, by decide, by decide, rfl, rfl,
   unaryCall_header_size_static ⟨exOut1.heap, exOut1.cached⟩ "u2" ⟨some exSb2⟩ exSb2
     (exDecideRewrite [91]) false [60] ⟨false, [91]⟩ rfl (by decide) (by decide) rfl rfl⟩

/-- C1 counterexample: the second interception of the two-rewrite run.  Its
buffer's own header is the 3 bytes `[1,2,3]` (data 23 − block 20), but the
cached static header size is 1 (from the first rewrite), so the new block is
`[1, 91]`: its header region does not reproduce the original header bytes
(the 3-byte read at its base fails outright, the block being 2 bytes), and
data_pointer sits 104 − 103 = 1 byte into the new block instead of after the
3-byte header — so the claimed per-interception postcondition is false. -/
theorem unaryCall_rewrite_header_counterexample :
    readBytes exOut1.heap exSb2.ref_counter (exSb2.data - exSb2.ref_counter)
      = some [1, 2, 3] ∧
    exOut2.ret = .fromOriginal ∧
    exOut2.buffer = some (some ⟨some ⟨103, 1, 104⟩⟩) ∧
    Heap.lookupBlock exOut2.heap 103 = some [1, 91] ∧
    readBytes exOut2.heap 103 (exSb2.data - exSb2.ref_counter) ≠ some [1, 2, 3] ∧
    (104 : Nat) - 103 ≠ exSb2.data - exSb2.ref_counter := by
  decide

/-- C1 amended: a rewrite produces the claimed buffer when, in addition, the
allocation succeeds, the old block is live, and the static header size
matches this interception's own header size (which always holds at the
first rewrite, the static being uninitialised).  Then the run is exactly:
payload read, decision call, malloc of header size + |P|, one free of the
old backing block, then the dispatch of the new buffer — so the old block is
freed exactly once, before the original dispatch.  The new buffer has
length |P|, data_pointer = new block base + header size, the payload bytes
at data_pointer are exactly P (second conjunct) and the header bytes at the
new block's base are exactly the original header bytes (third conjunct,
with `hh` reading those original bytes). -/
theorem unaryCall_rewrite_correct (g : GlobalState) (uri : String)
    (bb : ByteBuffer) (sb : SliceBuffer)
    (onUC : String → List Nat → Option NativeRequestData)
    (payload : List Nat) (rd : NativeRequestData) (hdrBytes : List Nat)
    (rest : List (Nat × List Nat))
    (hsb : bb.slice_buffer = some sb)
    (h0 : sb.ref_counter ≠ 0)
    (hp : readBytes g.heap sb.data sb.length = some payload)
    (hd : onUC uri payload = some rd)
    (hc : rd.canceled = false)
    (hcache : g.cached = none ∨ g.cached = some (sb.data - sb.ref_counter))
    (hh : readBytes g.heap sb.ref_counter (sb.data - sb.ref_counter) = some hdrBytes)
    (hfresh : g.heap.nextAddr ≠ sb.ref_counter)
    (hrem : removeBlock g.heap.blocks sb.ref_counter = some rest) :
    unaryCall_hook g uri (some (some bb)) onUC false
      = ⟨.fromOriginal,
         [.readPayload payload, .decideCall uri payload,
          .mallocEv ((sb.data - sb.ref_counter) + rd.buffer.length),
          .freeEv sb.ref_counter,
          .dispatchEv ⟨g.heap.nextAddr, rd.buffer.length,
                       g.heap.nextAddr + (sb.data - sb.ref_counter)⟩],
         ⟨(g.heap.nextAddr, hdrBytes ++ rd.buffer) :: rest,
          g.heap.nextAddr + (hdrBytes ++ rd.buffer).length + 1⟩,
         some (sb.data - sb.ref_counter),
         some (some ⟨some ⟨g.heap.nextAddr, rd.buffer.length,
                           g.heap.nextAddr + (sb.data - sb.ref_counter)⟩⟩)⟩ ∧
    readBytes (unaryCall_hook g uri (some (some bb)) onUC false).heap
        (g.heap.nextAddr + (sb.data - sb.ref_counter)) rd.buffer.length
      = some rd.buffer ∧
    readBytes (unaryCall_hook g uri (some (some bb)) onUC false).heap
        g.heap.nextAddr (sb.data - sb.ref_counter)
      = some hdrBytes := by
  have hgd : g.cached.getD (sb.data - sb.ref_counter) = sb.data - sb.ref_counter := by
    rcases hcache with h | h <;> rw [h] <;> rfl
  have hlen : hdrBytes.length = sb.data - sb.ref_counter :=
    readBytes_length g.heap sb.ref_counter _ hdrBytes hh
  have hmain : unaryCall_hook g uri (some (some bb)) onUC false
      = ⟨.fromOriginal,
         [.readPayload payload, .decideCall uri payload,
          .mallocEv ((sb.data - sb.ref_counter) + rd.buffer.length),
          .freeEv sb.ref_counter,
          .dispatchEv ⟨g.heap.nextAddr, rd.buffer.length,
                       g.heap.nextAddr + (sb.data - sb.ref_counter)⟩],
         ⟨(g.heap.nextAddr, hdrBytes ++ rd.buffer) :: rest,
          g.heap.nextAddr + (hdrBytes ++ rd.buffer).length + 1⟩,
         some (sb.data - sb.ref_counter),
         some (some ⟨some ⟨g.heap.nextAddr, rd.buffer.length,
                           g.heap.nextAddr + (sb.data - sb.ref_counter)⟩⟩)⟩ := by
    simp [unaryCall_hook, hsb, h0, hp, hd, hc, hgd, hh,
      Heap.mallocBlock, Heap.free, removeBlock, hfresh, hrem]
  refine ⟨hmain, ?_, ?_⟩
  · rw [hmain]
    rw [readBytes_head _ _ _ _ _ _ (Nat.le_add_right _ _)
      (by rw [List.length_append, hlen]; omega)]
    have hoff : g.heap.nextAddr + (sb.data - sb.ref_counter) - g.heap.nextAddr
        = hdrBytes.length := by omega
    rw [hoff, List.drop_left, List.take_length]
  · rw [hmain]
    rw [readBytes_head _ _ _ _ _ _ (Nat.le_refl _)
      (by rw [List.length_append, hlen]; omega)]
    rw [Nat.sub_self, List.drop_zero, ← hlen, List.take_left]

/-- C1 amended witness: the first rewrite of the concrete run (static
uninitialised, allocation succeeds, old block at 10 live). -/
theorem unaryCall_rewrite_correct_witness :
    (⟨some exSb1⟩ : ByteBuffer).slice_buffer = some exSb1 ∧
    exSb1.ref_counter ≠ 0 ∧
    readBytes exG0.heap exSb1.data exSb1.length = some [50] ∧
    exDecideRewrite [90] "u1" [50] = some ⟨false, [90]⟩ ∧
    (⟨false, [90]⟩ : NativeRequestData).canceled = false ∧
    (exG0.cached = none ∨ exG0.cached = some (exSb1.data - exSb1.ref_counter)) ∧
    readBytes exG0.heap exSb1.ref_counter (exSb1.data - exSb1.ref_counter) = some [7] ∧
    exG0.heap.nextAddr ≠ exSb1.ref_counter ∧
    removeBlock exG0.heap.blocks exSb1.ref_counter = some [(20, [1, 2, 3, 60])] ∧
    (unaryCall_hook exG0 "u1" (some (some ⟨some exSb1⟩)) (exDecideRewrite [90]) false
       = ⟨.fromOriginal,
          [.readPayload [50], .decideCall "u1" [50], .mallocEv 2, .freeEv 10,
           .dispatchEv ⟨100, 1, 101⟩],
          ⟨[(100, [7, 90]), (20, [1, 2, 3, 60])], 103⟩,
          some 1, some (some ⟨some ⟨100, 1, 101⟩⟩)⟩ ∧
     readBytes (unaryCall_hook exG0 "u1" (some (some ⟨some exSb1⟩))
         (exDecideRewrite [90]) false).heap 101 1 = some [90] ∧
     readBytes (unaryCall_hook exG0 "u1" (some (some ⟨some exSb1⟩))
         (exDecideRewrite [90]) false).heap 100 1 = some [7]) :=
  ⟨rfl, by decide, by decide, rfl, rfl, Or.inl rfl, by decide, by decide, by decide,
   unaryCall_rewrite_correct exG0 "u1" ⟨some exSb1⟩ exSb1 (exDecideRewrite [90])
     [50] ⟨false, [90]⟩ [7] [(20, [1, 2, 3, 60])] rfl (by decide) (by decide) rfl rfl
     (Or.inl rfl) (by decide) (by decide) (by decide)⟩

end SnapEnhance
